import Mathlib

/-!
Verification of the AuditX scan orchestration and check engine
(`src/lib/scanner.ts`, the `WebsiteScanner` class whose `performScan` runs
the fast check battery: `checkSecurityFast`, `checkPerformance`,
`checkSEOFast`, `checkAccessibility`).

The embedding is shallow:
* network I/O is an oracle `Net : String → Except NetError Response`
  mapping a request URL to either a network-level failure (an axios
  rejection) or a `Response` (any HTTP status, since every request is made
  with `validateStatus: () => true` unless noted otherwise);
* HTML parsing (cheerio) is abstracted by the `Doc` structure, whose fields
  are exactly the quantities the check modules query from the parsed tree;
* JavaScript number arithmetic in the scoring and performance thresholds is
  modelled over `ℚ`, and `Math.round` by the Mathlib `round` function (both are
  "round half up" on the non-negative values that occur here);
* strings are Lean `String`s; JS truthiness of a possibly-absent string is
  modelled explicitly (`none` and `some ""` are both falsy).
-/

namespace AuditX

/-- JS `s.startsWith(p)`: the first `p.length` characters of `s` are `p`. -/
def strStartsWith (s p : String) : Bool :=
  s.data.take p.data.length == p.data

/-- JS `s.slice(n)` / Lean `String.drop`: drop the first `n` characters. -/
def strDrop (s : String) (n : Nat) : String :=
  ⟨s.data.drop n⟩

/-- JS `s.includes(pat)` for a non-empty pattern `pat`:
`splitOn` yields more than one piece exactly when `pat` occurs in `s`. -/
def containsSub (s pat : String) : Bool :=
  (s.splitOn pat).length ≥ 2

theorem strStartsWith_append (p t : String) : strStartsWith (p ++ t) p = true := by
  have hdata : (p ++ t).data = p.data ++ t.data := by
    cases p; cases t; rfl
  simp [strStartsWith, hdata, List.take_left]

theorem strStartsWith_append_assoc (p t u : String) :
    strStartsWith (p ++ t ++ u) p = true := by
  have hdata : (p ++ t ++ u).data = p.data ++ (t.data ++ u.data) := by
    cases p; cases t; cases u; simp [List.append_assoc]
  simp [strStartsWith, hdata, List.take_left]

theorem strStartsWith_append_left (p t u : String) (h : strStartsWith t p = true) :
    strStartsWith (t ++ u) p = true := by
  simp only [strStartsWith, beq_iff_eq] at h ⊢
  have hdata : (t ++ u).data = t.data ++ u.data := by
    cases t; cases u; rfl
  have hlen : p.data.length ≤ t.data.length := by
    have hl := congrArg List.length h
    simp only [List.length_take] at hl
    omega
  rw [hdata, List.take_append_of_le_length hlen, h]

theorem strDrop_append (p t : String) : strDrop (p ++ t) p.data.length = t := by
  have hdata : (p ++ t).data = p.data ++ t.data := by
    cases p; cases t; rfl
  simp [strDrop, hdata, List.drop_left]

/-- A URL that starts with `http://` does not start with `https://`. -/
theorem not_https_of_http (u : String) (h : strStartsWith u "http://" = true) :
    strStartsWith u "https://" = false := by
  simp only [strStartsWith, beq_iff_eq] at h
  simp only [strStartsWith, beq_eq_false_iff_ne, Ne]
  intro hcon
  have h7 : u.data.take 7 = "http://".data := by
    simpa using h
  have h8 : u.data.take 8 = "https://".data := by
    simpa using hcon
  have : (u.data.take 8).take 7 = u.data.take 7 := by
    simp [List.take_take]
  rw [h7, h8] at this
  simp at this

/-- JS truthiness of an optional string value (`undefined` and `""` are
falsy, every other string is truthy). -/
def optTruthy : Option String → Bool
  | none => false
  | some s => !s.isEmpty

/-- JS falsiness of an `alt` attribute value, as in the JS test `!$(img).attr("alt")`:
a missing attribute or an empty string both count as "no alt text". -/
def altFalsy : Option String → Bool
  | none => true
  | some s => s.isEmpty

/-- `SecurityCheck` / `SEOCheck` / `AccessibilityCheck` from
`src/lib/types.ts` — the three interfaces share this exact shape.
`recommendation?: string` is modelled as `Option String`. -/
structure CheckResult where
  name : String
  status : String
  description : String
  recommendation : Option String := none
deriving Repr, DecidableEq

abbrev SecurityCheck := CheckResult
abbrev SEOCheck := CheckResult
abbrev AccessibilityCheck := CheckResult

/-- `PerformanceMetric` from `src/lib/types.ts`; `value` is a JS number,
modelled over `ℚ` (TTFB is `loadTime * 0.3`, which is fractional). -/
structure PerformanceMetric where
  name : String
  value : ℚ
  unit : String
  status : String
deriving Repr, DecidableEq

/-- `calculateScore` (scanner.ts lines 1740–1751), applied to the list of
`status` fields of the checks.  Empty list scores 100; otherwise
pass = 1 point, warning = 0.5 points, fail = 0 points, normalised to 0–100
and rounded with `Math.round` (round half up, i.e. `⌊x + 1/2⌋`). -/
def calculateScore (checks : List String) : ℤ :=
  if checks.length = 0 then 100
  else
    let passCount := (checks.filter (fun s => s = "pass")).length
    let warningCount := (checks.filter (fun s => s = "warning")).length
    let totalPoints : ℚ := passCount + warningCount * (1 / 2)
    let maxPoints : ℚ := checks.length
    round (totalPoints / maxPoints * 100)

/-- The scoring formula exactly as the spec states it:
`score = round(100 * (passCount + 0.5*warningCount) / totalChecks)`,
with `score([]) = 100`. -/
def scoreSpec (checks : List String) : ℤ :=
  if checks = [] then 100
  else
    round ((100 : ℚ) *
      (((checks.filter (fun s => s = "pass")).length : ℚ) +
        (1 / 2) * ((checks.filter (fun s => s = "warning")).length : ℚ)) /
      (checks.length : ℚ))

/-- C1: for every list of check results, `calculateScore` returns
`round(100 * (passCount + 0.5*warningCount) / totalChecks)`, and `100`
for the empty list. -/
theorem calculateScore_eq_scoreSpec (checks : List String) :
    calculateScore checks = scoreSpec checks := by
  rcases checks with _ | ⟨c, cs⟩
  · simp [calculateScore, scoreSpec]
  · have h1 : ¬((c :: cs).length = 0) := by simp
    have h2 : ¬(c :: cs = []) := by simp
    simp only [calculateScore, scoreSpec, if_neg h1, if_neg h2]
    apply congrArg
    ring

/-- Disjoint filters: the pass-checks and the warning-checks are disjoint
sublists, so their sizes sum to at most the total number of checks. -/
theorem filter_pass_add_filter_warning_le (checks : List String) :
    (checks.filter (fun s => s = "pass")).length +
      (checks.filter (fun s => s = "warning")).length ≤ checks.length := by
  induction checks with
  | nil => simp
  | cons c cs ih =>
    by_cases hp : c = "pass"
    · have hw : ¬c = "warning" := by simp [hp]
      simp [List.filter_cons, hp, hw]
      omega
    · by_cases hw : c = "warning"
      · simp [List.filter_cons, hp, hw]
        omega
      · simp [List.filter_cons, hp, hw]
        omega

/-- C10: every category score is an integer between 0 and 100. -/
theorem calculateScore_bounds (checks : List String)
    (h : ∀ s ∈ checks, s = "pass" ∨ s = "warning" ∨ s = "fail") :
    0 ≤ calculateScore checks ∧ calculateScore checks ≤ 100 := by
  by_cases hlen : checks.length = 0
  · simp [calculateScore, hlen]
  · simp only [calculateScore, if_neg hlen]
    set p := (checks.filter (fun s => s = "pass")).length with hp
    set w := (checks.filter (fun s => s = "warning")).length with hw
    set t := checks.length with ht
    have hle : p + w ≤ t := filter_pass_add_filter_warning_le checks
    have htpos : (0 : ℚ) < (t : ℚ) := by
      have : 0 < t := Nat.pos_of_ne_zero hlen
      exact_mod_cast this
    have hx0 : (0 : ℚ) ≤ ((p : ℚ) + (w : ℚ) * (1 / 2)) / (t : ℚ) * 100 := by
      positivity
    have hx1 : ((p : ℚ) + (w : ℚ) * (1 / 2)) / (t : ℚ) * 100 ≤ 100 := by
      have hnum : (p : ℚ) + (w : ℚ) * (1 / 2) ≤ (t : ℚ) := by
        have hpw : (p : ℚ) + (w : ℚ) ≤ (t : ℚ) := by exact_mod_cast hle
        nlinarith
      have hdiv : ((p : ℚ) + (w : ℚ) * (1 / 2)) / (t : ℚ) ≤ 1 :=
        (div_le_one htpos).mpr hnum
      nlinarith
    rw [round_eq]
    constructor
    · exact Int.le_floor.mpr (by push_cast; linarith)
    · have hlt : ⌊((p : ℚ) + (w : ℚ) * (1 / 2)) / (t : ℚ) * 100 + 1 / 2⌋ < 101 :=
        Int.floor_lt.mpr (by push_cast; linarith)
      omega

/-- C10 witness: a concrete mixed check list is scored within bounds. -/
theorem calculateScore_bounds_witness :
    (∀ s ∈ ["pass", "warning", "fail"], s = "pass" ∨ s = "warning" ∨ s = "fail") ∧
      0 ≤ calculateScore ["pass", "warning", "fail"] ∧
      calculateScore ["pass", "warning", "fail"] ≤ 100 :=
  ⟨by decide, calculateScore_bounds ["pass", "warning", "fail"] (by decide)⟩

/-- A network-level failure: the rejection value of an axios request
(`error.code`, `error.message`, and the optional `error.response` status
data used by the catch block of `performScan`). -/
structure NetError where
  code : String
  message : String
  responseStatus : Option Nat := none
  responseStatusText : Option String := none
deriving Repr, DecidableEq

/-- The response headers inspected by `checkSecurityFast`
(axios lower-cases header names). -/
structure Headers where
  xFrameOptions : Option String := none
  xContentTypeOptions : Option String := none
  strictTransportSecurity : Option String := none
deriving Repr, DecidableEq

/-- An axios response: HTTP status code, body text, headers. -/
structure Response where
  status : Nat
  data : String
  headers : Headers := {}
deriving Repr, DecidableEq

/-- The network oracle: each URL either fails at the network level
(DNS failure, connection refused, timeout — an axios rejection) or
yields a `Response`.  All scanner requests are issued with
`validateStatus: () => true`, so any HTTP status is an `ok` outcome. -/
abbrev Net := String → Except NetError Response

/-- The mutable state of a `WebsiteScanner` instance:
`this.url`, `this.baseUrl`, `this.protocol`. -/
structure Scanner where
  url : String
  baseUrl : String
  protocol : String
deriving Repr, DecidableEq

/-- `processUrlInput` (scanner.ts lines 1016–1028): trim, strip one
trailing slash, and prepend `https://` when no explicit scheme is given. -/
def processUrlInput (input : String) : String :=
  let t := input.trim
  let cleanInput := if t.endsWith "/" then t.dropRight 1 else t
  if strStartsWith cleanInput "http://" || strStartsWith cleanInput "https://" then
    cleanInput
  else
    "https://" ++ cleanInput

/-- `httpUrl.split("/").slice(0, 3).join("/")` — how `fetchWithFallback`
recomputes `this.baseUrl` after switching protocol. -/
def splitSlice3Join (u : String) : String :=
  String.intercalate "/" ((u.splitOn "/").take 3)

/-- `fetchWithFallback` (scanner.ts lines 1030–1100).  The primary GET
accepts every HTTP status (both source branches return the response).  On a
network-level failure, exactly one retry is made under the alternate
scheme; a successful retry commits the new URL/baseUrl/protocol into the
scanner state.  If the retry also fails, the *original* error is thrown.
`this.url.replace("https://", "http://")` is evaluated under the guard
`this.url.startsWith("https://")`, where replacing the first occurrence is
exactly replacing the 8-character prefix (and symmetrically for `http://`,
7 characters). -/
def fetchWithFallback (s : Scanner) (net : Net) : Except NetError (Response × Scanner) :=
  match net s.url with
  | .ok response =>
    -- any status from a reachable server is returned as-is
    if 200 ≤ response.status ∧ response.status < 400 then .ok (response, s)
    else .ok (response, s)
  | .error err =>
    if strStartsWith s.url "https://" then
      let httpUrl := "http://" ++ strDrop s.url 8
      match net httpUrl with
      | .ok response =>
        .ok (response, { url := httpUrl, baseUrl := splitSlice3Join httpUrl, protocol := "http:" })
      | .error _ => .error err
    else if strStartsWith s.url "http://" then
      let httpsUrl := "https://" ++ strDrop s.url 7
      match net httpsUrl with
      | .ok response =>
        .ok (response, { url := httpsUrl, baseUrl := splitSlice3Join httpsUrl, protocol := "https:" })
      | .error _ => .error err
    else .error err

/-- The catch block of `performScan` (scanner.ts lines 1166–1182): maps the
propagated axios error to the descriptive message thrown to the caller. -/
def mapScanError (e : NetError) : String :=
  if e.code = "ECONNREFUSED" then
    "Connection refused - the website may be down or unreachable"
  else if e.code = "ENOTFOUND" then
    "Website not found - please check the URL is correct"
  else if e.code = "ETIMEDOUT" || containsSub e.message "timeout" then
    "Request timeout - the website took too long to respond"
  else
    match e.responseStatus with
    | some st =>
      let stxt := match e.responseStatusText with
        | some t => if t = "" then "Server error" else t
        | none => "Server error"
      s!"HTTP {st}: {stxt}"
    | none =>
      let msg := e.message
      s!"Scan failed: {msg}"

/-- One non-hidden form input (`input:not([type="hidden"]), textarea,
select`), as inspected by the Form Labels accessibility check:
whether an associated `<label for=…>` exists, and whether an
`aria-label`/`aria-labelledby` attribute is (truthily) present. -/
structure FormInput where
  hasLabelFor : Bool
  hasAriaLabel : Bool
deriving Repr, DecidableEq

/-- The parsed HTML document, abstracting the cheerio tree: each field is
exactly one of the queries the fast check battery and the accessibility
module perform against `$`. -/
structure Doc where
  /-- `$("title").text()` (empty string when there is no title element). -/
  title : String
  /-- `$("meta[name=description]").attr("content")`. -/
  metaDescription : Option String
  /-- `$("h1").length`. -/
  h1Count : Nat
  /-- the `alt` attribute of each `<img>`, in document order. -/
  imgAlts : List (Option String)
  /-- `$("[aria-label], [aria-labelledby], [aria-describedby]").length`. -/
  ariaLabeledCount : Nat
  /-- `$("button, input, select, textarea, a").length`. -/
  interactiveCount : Nat
  /-- `$("main, nav, header, footer, section, article, aside").length`. -/
  semanticCount : Nat
  /-- the non-hidden form inputs with their labelling state. -/
  formInputs : List FormInput
  /-- `$("a, button, input, textarea, select, [tabindex]").length`. -/
  focusableCount : Nat
  /-- `$("[tabindex=-1]").length`. -/
  tabindexNeg1Count : Nat
  /-- `$("script, link[rel=stylesheet], img").length`. -/
  resourceCount : Nat
deriving Repr, DecidableEq

/-- Whether a settled probe result counts as an accessible response:
fulfilled with `200 <= status < 400` (rejected promises are filtered out). -/
def isAccessibleStatus (r : Except NetError Response) : Bool :=
  match r with
  | .ok v => decide (200 ≤ v.status ∧ v.status < 400)
  | .error _ => false

/-- The admin paths probed by `quickAdminCheck` (scanner.ts line 1555). -/
def quickAdminPaths : List String := ["/admin", "/wp-admin", "/administrator"]

/-- The URLs `quickAdminCheck` requests: `${this.url}${path}`. -/
def quickAdminUrls (url : String) : List String :=
  quickAdminPaths.map (fun p => url ++ p)

/-- How many of the three probed admin paths return an accessible
(2xx/3xx) response. -/
def quickAdminAccessibleCount (url : String) (net : Net) : Nat :=
  (((quickAdminUrls url).map net).filter isAccessibleStatus).length

/-- `quickAdminCheck` (scanner.ts lines 1553–1586): the admin-path
exposure check run during a scan.  `pass` when no probed path is
accessible, `fail` as soon as one is. -/
def quickAdminCheck (url : String) (net : Net) : SecurityCheck :=
  let n := quickAdminAccessibleCount url net
  { name := "Admin Panel Access"
    description := if n > 0 then "Admin paths may be accessible"
      else "Admin paths properly protected"
    status := if n > 0 then "fail" else "pass"
    recommendation := if n > 0 then some "Secure or remove accessible admin paths" else none }

/-- `quickRobotsCheck` (scanner.ts lines 1588–1624). -/
def quickRobotsCheck (url : String) (net : Net) : SecurityCheck :=
  match net (url ++ "/robots.txt") with
  | .ok r =>
    if r.status = 200 then
      let robotsContent := r.data.toLower
      let hasSensitiveDisallows := containsSub robotsContent "admin" ||
        containsSub robotsContent "private" || containsSub robotsContent "secret"
      { name := "Robots.txt Information Disclosure"
        description := if hasSensitiveDisallows then "Robots.txt may reveal sensitive directories"
          else "Robots.txt found, no sensitive paths exposed"
        status := if hasSensitiveDisallows then "fail" else "pass"
        recommendation := if hasSensitiveDisallows then
          some "Review robots.txt for sensitive path disclosure" else none }
    else
      { name := "Robots.txt", description := "No robots.txt file found", status := "pass" }
  | .error _ =>
    { name := "Robots.txt", description := "Robots.txt check completed", status := "pass" }

/-- The files probed by `quickSensitiveFileCheck` (scanner.ts line 1628). -/
def quickSensitiveFiles : List String := [".env", "config.php", "wp-config.php"]

/-- The URLs `quickSensitiveFileCheck` requests: `${this.url}/${file}`. -/
def quickSensitiveUrls (url : String) : List String :=
  quickSensitiveFiles.map (fun f => url ++ "/" ++ f)

/-- `quickSensitiveFileCheck` (scanner.ts lines 1626–1659). -/
def quickSensitiveFileCheck (url : String) (net : Net) : SecurityCheck :=
  let exposed := (((quickSensitiveUrls url).map net).filter isAccessibleStatus).length
  { name := "Sensitive File Exposure"
    description := if exposed > 0 then "Sensitive files may be exposed"
      else "No sensitive files exposed"
    status := if exposed > 0 then "fail" else "pass"
    recommendation := if exposed > 0 then
      some "Remove or protect sensitive configuration files" else none }

/-- `checkSecurityFast` (scanner.ts lines 1476–1551): the security module
`performScan` actually runs.  Five header/content checks on the main
response, then the three quick network probes (whose promises always
fulfil, since each catches its own failures). -/
def checkSecurityFast (url : String) (resp : Response) (net : Net) : List SecurityCheck :=
  let headers := resp.headers
  let httpsOk := strStartsWith url "https"
  let htmlContent := resp.data.toLower
  let sqlExposed := containsSub htmlContent "error" && containsSub htmlContent "sql"
  [ { name := "HTTPS"
      description := if httpsOk then "Site uses HTTPS" else "Site does not use HTTPS"
      status := if httpsOk then "pass" else "fail"
      recommendation := if httpsOk then none
        else some "Implement HTTPS to encrypt data in transit" },
    { name := "X-Frame-Options"
      description := if optTruthy headers.xFrameOptions then "X-Frame-Options header present"
        else "X-Frame-Options header missing"
      status := if optTruthy headers.xFrameOptions then "pass" else "fail"
      recommendation := if optTruthy headers.xFrameOptions then none
        else some "Add X-Frame-Options header to prevent clickjacking" },
    { name := "X-Content-Type-Options"
      description := if optTruthy headers.xContentTypeOptions then
          "X-Content-Type-Options header present"
        else "X-Content-Type-Options header missing"
      status := if optTruthy headers.xContentTypeOptions then "pass" else "fail"
      recommendation := if optTruthy headers.xContentTypeOptions then none
        else some "Add X-Content-Type-Options header to prevent MIME sniffing" },
    { name := "Strict-Transport-Security"
      description := if optTruthy headers.strictTransportSecurity then "HSTS header present"
        else "HSTS header missing"
      status := if optTruthy headers.strictTransportSecurity then "pass" else "fail"
      recommendation := if optTruthy headers.strictTransportSecurity then none
        else some "Add HSTS header to force HTTPS connections" },
    { name := "SQL Injection Protection"
      description := if sqlExposed then "Potential SQL error exposure detected"
        else "No obvious SQL error exposure"
      status := if sqlExposed then "fail" else "pass"
      recommendation := if sqlExposed then some "Review and fix SQL error handling" else none },
    quickAdminCheck url net,
    quickRobotsCheck url net,
    quickSensitiveFileCheck url net ]

/-- `checkSEOFast` (scanner.ts lines 1661–1738): the SEO module
`performScan` actually runs.  Four content checks plus one sitemap probe
against `${this.url}/sitemap.xml`. -/
def checkSEOFast (doc : Doc) (url : String) (net : Net) : List SEOCheck :=
  let title := doc.title
  let titleLen := title.length
  let descPresent := optTruthy doc.metaDescription
  let descLen := (doc.metaDescription.getD "").length
  let h1Count := doc.h1Count
  let imagesWithoutAlt := (doc.imgAlts.filter altFalsy).length
  let sitemapCheck : SEOCheck :=
    match net (url ++ "/sitemap.xml") with
    | .ok r =>
      { name := "XML Sitemap"
        description := if r.status = 200 then "XML sitemap found" else "XML sitemap not found"
        status := if r.status = 200 then "pass" else "fail"
        recommendation := if r.status = 200 then none
          else some "Create and submit an XML sitemap" }
    | .error _ =>
      { name := "XML Sitemap", description := "Sitemap check completed", status := "pass" }
  [ { name := "Page Title"
      description := if title.isEmpty then "Page title missing"
        else s!"Page title present ({titleLen} chars)"
      status := if title.isEmpty then "fail" else "pass"
      recommendation := if title.isEmpty then some "Add a descriptive page title" else none },
    { name := "Meta Description"
      description := if descPresent then s!"Meta description present ({descLen} chars)"
        else "Meta description missing"
      status := if descPresent then "pass" else "fail"
      recommendation := if descPresent then none
        else some "Add a compelling meta description" },
    { name := "H1 Tags"
      description := if h1Count = 1 then "Single H1 tag found (optimal)"
        else if h1Count = 0 then "No H1 tag found"
        else s!"Multiple H1 tags found ({h1Count})"
      status := if h1Count = 1 then "pass" else "fail"
      recommendation := if h1Count ≠ 1 then some "Use exactly one H1 tag per page" else none },
    { name := "Image Alt Text"
      description := if imagesWithoutAlt = 0 then "All images have alt text"
        else s!"{imagesWithoutAlt} images missing alt text"
      status := if imagesWithoutAlt = 0 then "pass" else "fail"
      recommendation := if imagesWithoutAlt = 0 then none
        else some "Add descriptive alt text to all images" },
    sitemapCheck ]

/-- `checkAccessibility` (scanner.ts lines 1409–1474): pure document
inspection.  Note that every check in this module carries its
`recommendation` string unconditionally, even with a `pass` status. -/
def checkAccessibility (doc : Doc) : List AccessibilityCheck :=
  let images := doc.imgAlts.length
  let imagesWithoutAlt := (doc.imgAlts.filter altFalsy).length
  let ariaElements := doc.ariaLabeledCount
  let interactiveElements := doc.interactiveCount
  let semanticElements := doc.semanticCount
  let inputs := doc.formInputs.length
  let inputsWithLabels :=
    (doc.formInputs.filter (fun i => i.hasLabelFor || i.hasAriaLabel)).length
  let focusableElements := doc.focusableCount
  let elementsWithTabindex := doc.tabindexNeg1Count
  [ { name := "Alt Text"
      status := if imagesWithoutAlt = 0 then "pass" else "fail"
      description := s!"{imagesWithoutAlt} of {images} images missing alt text"
      recommendation := some "Add descriptive alt text to all images" },
    { name := "ARIA Labels"
      status := if ariaElements > 0 then "pass"
        else if interactiveElements > 0 then "warning" else "pass"
      description := s!"{ariaElements} elements with ARIA labels found"
      recommendation := some "Use ARIA labels for interactive elements without visible labels" },
    { name := "Semantic HTML"
      status := if semanticElements > 0 then "pass" else "warning"
      description := s!"{semanticElements} semantic HTML elements found"
      recommendation := some "Use semantic HTML elements (main, nav, header, footer, etc.)" } ]
  ++ (if inputs > 0 then
      [ { name := "Form Labels"
          status := if inputsWithLabels = inputs then "pass" else "fail"
          description := s!"{inputsWithLabels} of {inputs} form inputs have proper labels"
          recommendation := some "Associate all form inputs with descriptive labels" } ]
    else [])
  ++ [ { name := "Keyboard Navigation"
         status := if elementsWithTabindex = 0 then "pass" else "warning"
         description := s!"{focusableElements} focusable elements found"
         recommendation := some "Ensure all interactive elements are keyboard accessible" } ]

/-- `checkPerformance` (scanner.ts lines 1227–1267): four metrics derived
from the main fetch.  `loadTime` is the wall-clock fetch duration in ms
(a parameter of the model); TTFB is approximated as `loadTime * 0.3`;
page size is the UTF-8 byte length of the body. -/
def checkPerformance (resp : Response) (loadTime : ℚ) (doc : Doc) : List PerformanceMetric :=
  let ttfb := loadTime * (3 / 10)
  let pageSize : ℚ := (resp.data.utf8ByteSize : ℚ)
  let resources : ℚ := (doc.resourceCount : ℚ)
  [ { name := "Load Time", value := loadTime, unit := "ms"
      status := if loadTime < 2000 then "good"
        else if loadTime < 4000 then "needs-improvement" else "poor" },
    { name := "TTFB", value := ttfb, unit := "ms"
      status := if ttfb < 600 then "good"
        else if ttfb < 1000 then "needs-improvement" else "poor" },
    { name := "Page Size", value := pageSize, unit := "bytes"
      status := if pageSize < 500000 then "good"
        else if pageSize < 1000000 then "needs-improvement" else "poor" },
    { name := "Resource Count", value := resources, unit := "count"
      status := if resources < 20 then "good"
        else if resources < 50 then "needs-improvement" else "poor" } ]

/-- The `switch (metric.name)` of `generateRecommendations`
(scanner.ts lines 1774–1787): the canned remediation string pushed for a
poor metric; names outside the four cases push nothing. -/
def perfCanned (name : String) : Option String :=
  if name = "Load Time" then
    some "Optimize images, enable compression, and use a CDN to improve load times"
  else if name = "TTFB" then
    some "Optimize server response time by improving database queries and caching"
  else if name = "Page Size" then
    some "Reduce page size by optimizing images, minifying CSS/JS, and removing unused code"
  else if name = "Resource Count" then
    some "Reduce HTTP requests by combining files, using sprites, and lazy loading"
  else none

/-- `generateRecommendations` (scanner.ts lines 1753–1791): the
recommendation of every failing check with a truthy recommendation, in the
order security, SEO, accessibility, followed by the canned string for each
poor performance metric.  No deduplication. -/
def generateRecommendations (security : List SecurityCheck)
    (performance : List PerformanceMetric) (seo : List SEOCheck)
    (accessibility : List AccessibilityCheck) : List String :=
  ((security ++ seo ++ accessibility).filter
      (fun c => c.status == "fail" && optTruthy c.recommendation)).filterMap
    (fun c => c.recommendation)
  ++ (performance.filter (fun m => m.status == "poor")).filterMap
    (fun m => perfCanned m.name)

/-- `status good ↦ pass, needs-improvement ↦ warning, poor ↦ fail` — how `performScan` maps performance statuses into
check statuses before scoring (scanner.ts lines 1142–1144). -/
def perfStatusToCheckStatus (s : String) : String :=
  if s = "good" then "pass" else if s = "needs-improvement" then "warning" else "fail"

/-- The fields of the `ScanResult` built by `performScan` that the claims
concern (the `date` timestamp, per-category `issues` lists and the
performance `details` block are faithful projections of the same data and
are omitted). -/
structure ScanOutcome where
  url : String
  security : List SecurityCheck
  performanceMetrics : List PerformanceMetric
  seo : List SEOCheck
  accessibility : List AccessibilityCheck
  recommendations : List String
  securityScore : ℤ
  performanceScore : ℤ
  seoScore : ℤ
  accessibilityScore : ℤ
deriving Repr, DecidableEq

/-- `performScan` (scanner.ts lines 1102–1183): fetch with protocol
fallback, parse the body (`parse` abstracts `cheerio.load`), run the four
check modules against the response and the committed scanner state, and
assemble the result; a fetch failure is mapped to a descriptive error
message by the catch block.  `loadTime` abstracts the measured wall-clock
fetch duration. -/
def performScanModel (s : Scanner) (net : Net) (parse : String → Doc)
    (loadTime : ℚ) : Except String ScanOutcome :=
  match fetchWithFallback s net with
  | .error e => .error (mapScanError e)
  | .ok (response, s') =>
    let doc := parse response.data
    let securityResults := checkSecurityFast s'.url response net
    let performanceResults := checkPerformance response loadTime doc
    let seoResults := checkSEOFast doc s'.url net
    let accessibilityResults := checkAccessibility doc
    .ok
      { url := s'.url
        security := securityResults
        performanceMetrics := performanceResults
        seo := seoResults
        accessibility := accessibilityResults
        recommendations := generateRecommendations securityResults performanceResults
          seoResults accessibilityResults
        securityScore := calculateScore (securityResults.map (fun c => c.status))
        performanceScore := calculateScore (performanceResults.map
          (fun m => perfStatusToCheckStatus m.status))
        seoScore := calculateScore (seoResults.map (fun c => c.status))
        accessibilityScore := calculateScore (accessibilityResults.map (fun c => c.status)) }

/-- The auxiliary request URLs the scan issues besides the main fetch:
the three quick admin paths, `robots.txt`, the three sensitive files
(all from `checkSecurityFast`) and `sitemap.xml` (from `checkSEOFast`) —
every one of them built from `this.url` as committed by
`fetchWithFallback`. -/
def scanAuxUrls (url : String) : List String :=
  quickAdminUrls url ++ [url ++ "/robots.txt"] ++ quickSensitiveUrls url
    ++ [url ++ "/sitemap.xml"]

/-- The 18 admin paths probed by `checkBrokenAccessControl`
(scanner.ts lines 1798–1803). -/
def adminPathsFull : List String :=
  ["/admin", "/administrator", "/wp-admin", "/cpanel", "/control-panel",
   "/admin.php", "/login.php", "/admin.asp", "/admin.aspx", "/admin.html",
   "/manager", "/management", "/console", "/backend", "/cms",
   "/phpmyadmin", "/phpMyAdmin", "/wp-login.php"]

/-- The paths counted as accessible by `checkBrokenAccessControl`:
requests are made with `validateStatus: status < 500` (a 5xx rejects and
is caught), and only a 200 response increments the counter. -/
def fullAdminAccessiblePaths (origin : String) (net : Net) : List String :=
  adminPathsFull.filter (fun p =>
    match net (origin ++ p) with
    | .ok r => r.status == 200
    | .error _ => false)

/-- The admin-path check pushed by `checkBrokenAccessControl`
(scanner.ts lines 1834–1843), as a function of `new URL(this.url).origin`.
This tri-state check belongs to the full `checkSecurity` battery, which
`performScan` does not invoke. -/
def accessControlAdminCheck (origin : String) (net : Net) : SecurityCheck :=
  let accessiblePaths := fullAdminAccessiblePaths origin net
  let n := accessiblePaths.length
  let joined := String.intercalate ", " accessiblePaths
  { name := "Access Control - Admin Paths"
    status := if n = 0 then "pass" else if n ≤ 2 then "warning" else "fail"
    description := if n > 0 then s!"{n} admin paths accessible: {joined}"
      else "No publicly accessible admin paths found"
    recommendation := if n > 0 then
      some "Restrict access to administrative interfaces with proper authentication and IP whitelisting"
    else none }

/-! Concrete fixtures used by witnesses and counterexamples. -/

/-- A connection-refused axios error. -/
def errConn : NetError := { code := "ECONNREFUSED", message := "connect ECONNREFUSED" }

/-- A timeout axios error. -/
def errTimeout : NetError := { code := "ETIMEDOUT", message := "timeout of 10000ms exceeded" }

/-- A plain 200 response. -/
def resp0 : Response := { status := 200, data := "hello" }

/-- A 404 response from a reachable server. -/
def resp404 : Response := { status := 404, data := "missing page" }

/-- A network where every request fails (connection refused). -/
def netDown : Net := fun _ => .error errConn

/-- A network where every request succeeds with a 404. -/
def net404 : Net := fun _ => .ok resp404

/-- A network where the `https://` origin is unreachable but the
`http://` origin answers. -/
def netSplit : Net := fun u =>
  if strStartsWith u "https://" then .error errTimeout else .ok resp0

/-- A simple fixture document. -/
def doc0 : Doc :=
  { title := "Welcome", metaDescription := none, h1Count := 1, imgAlts := [],
    ariaLabeledCount := 0, interactiveCount := 0, semanticCount := 0,
    formInputs := [], focusableCount := 0, tabindexNeg1Count := 0,
    resourceCount := 0 }

/-- A parser oracle that returns the fixture document for every body. -/
def parseConst : String → Doc := fun _ => doc0

/-- C3: if the `https://` fetch fails at the network level and the
`http://` retry succeeds, the `url` of the scan result begins with `http://`
and every auxiliary request (admin paths, robots.txt, sensitive files,
sitemap.xml) targets the `http://` origin. -/
theorem protocol_fallback_commits_http (host : String) (s : Scanner) (net : Net)
    (parse : String → Doc) (loadTime : ℚ) (e : NetError) (resp : Response)
    (hurl : s.url = "https://" ++ host)
    (h1 : net ("https://" ++ host) = .error e)
    (h2 : net ("http://" ++ host) = .ok resp) :
    ∃ out : ScanOutcome,
      performScanModel s net parse loadTime = .ok out ∧
      out.url = "http://" ++ host ∧
      strStartsWith out.url "http://" = true ∧
      ∀ u ∈ scanAuxUrls out.url, strStartsWith u "http://" = true := by
  have h8 : ("https://" : String).data.length = 8 := rfl
  have hdrop : strDrop ("https://" ++ host) 8 = host := by
    have := strDrop_append "https://" host
    rwa [h8] at this
  have hfetch : fetchWithFallback s net =
      .ok (resp, ⟨"http://" ++ host, splitSlice3Join ("http://" ++ host), "http:"⟩) := by
    unfold fetchWithFallback
    rw [hurl, h1, strStartsWith_append]
    simp only [if_true, hdrop, h2]
  refine ⟨_, by unfold performScanModel; rw [hfetch], rfl, strStartsWith_append _ _, ?_⟩
  intro u hu
  have hbase : strStartsWith ("http://" ++ host) "http://" = true :=
    strStartsWith_append _ _
  simp only [scanAuxUrls, quickAdminUrls, quickAdminPaths, quickSensitiveUrls,
    quickSensitiveFiles, List.map_cons, List.map_nil, List.cons_append,
    List.nil_append] at hu
  fin_cases hu <;>
    exact strStartsWith_append_left _ _ _ hbase

/-- C3 witness: a concrete host where `https://` times out and `http://`
answers; the scan commits the `http://` origin everywhere. -/
theorem protocol_fallback_commits_http_witness :
    ∃ out : ScanOutcome,
      performScanModel ⟨"https://example.com", "https://example.com", "https:"⟩
          netSplit parseConst 100 = .ok out ∧
      out.url = "http://" ++ "example.com" ∧
      strStartsWith out.url "http://" = true ∧
      ∀ u ∈ scanAuxUrls out.url, strStartsWith u "http://" = true :=
  protocol_fallback_commits_http "example.com"
    ⟨"https://example.com", "https://example.com", "https:"⟩
    netSplit parseConst 100 errTimeout resp0 (by decide)
    (by simp [netSplit]; decide) (by simp [netSplit]; decide)

/-- The alternate-scheme URL `fetchWithFallback` retries
(`https⇄http` on the committed first occurrence of the scheme). -/
def altSchemeUrl (u : String) : String :=
  if strStartsWith u "https://" then "http://" ++ strDrop u 8
  else "https://" ++ strDrop u 7

/-- C4: when the original fetch and the alternate-protocol retry both fail
at the network level, `fetchWithFallback` throws the original error, and
the message `performScan` surfaces is derived from that original error. -/
theorem fallback_surfaces_original_error (s : Scanner) (net : Net)
    (parse : String → Doc) (loadTime : ℚ) (e1 e2 : NetError)
    (hscheme : strStartsWith s.url "https://" = true ∨ strStartsWith s.url "http://" = true)
    (h1 : net s.url = .error e1)
    (h2 : net (altSchemeUrl s.url) = .error e2) :
    fetchWithFallback s net = .error e1 ∧
      performScanModel s net parse loadTime = .error (mapScanError e1) := by
  have hfetch : fetchWithFallback s net = .error e1 := by
    rcases hscheme with hs | hs
    · unfold altSchemeUrl at h2
      rw [hs, if_pos rfl] at h2
      unfold fetchWithFallback
      rw [h1, hs]
      simp only [if_true, h2]
    · have hns : strStartsWith s.url "https://" = false := not_https_of_http _ hs
      unfold altSchemeUrl at h2
      rw [hns, if_neg (by simp)] at h2
      unfold fetchWithFallback
      rw [h1, hns, hs]
      simp only [if_true, if_false, Bool.false_eq_true, h2]
  exact ⟨hfetch, by unfold performScanModel; rw [hfetch]⟩

/-- C4 witness: both schemes refuse the connection; the surfaced message
comes from the original `ECONNREFUSED` error. -/
theorem fallback_surfaces_original_error_witness :
    fetchWithFallback ⟨"https://example.com", "https://example.com", "https:"⟩ netDown =
        .error errConn ∧
      performScanModel ⟨"https://example.com", "https://example.com", "https:"⟩
          netDown parseConst 100 =
        .error (mapScanError errConn) :=
  fallback_surfaces_original_error
    ⟨"https://example.com", "https://example.com", "https:"⟩
    netDown parseConst 100 errConn errConn (Or.inl (by decide)) rfl rfl

/-- C5: any HTTP status from a reachable server — including 404 and 500 —
is a successful fetch: `performScan` does not throw, and all four check
modules run against that response. -/
theorem any_status_runs_all_checks (s : Scanner) (net : Net)
    (parse : String → Doc) (loadTime : ℚ) (resp : Response)
    (h : net s.url = .ok resp) :
    performScanModel s net parse loadTime = .ok
      { url := s.url
        security := checkSecurityFast s.url resp net
        performanceMetrics := checkPerformance resp loadTime (parse resp.data)
        seo := checkSEOFast (parse resp.data) s.url net
        accessibility := checkAccessibility (parse resp.data)
        recommendations := generateRecommendations (checkSecurityFast s.url resp net)
          (checkPerformance resp loadTime (parse resp.data))
          (checkSEOFast (parse resp.data) s.url net)
          (checkAccessibility (parse resp.data))
        securityScore := calculateScore
          ((checkSecurityFast s.url resp net).map (fun c => c.status))
        performanceScore := calculateScore
          ((checkPerformance resp loadTime (parse resp.data)).map
            (fun m => perfStatusToCheckStatus m.status))
        seoScore := calculateScore
          ((checkSEOFast (parse resp.data) s.url net).map (fun c => c.status))
        accessibilityScore := calculateScore
          ((checkAccessibility (parse resp.data)).map (fun c => c.status)) } := by
  have hfetch : fetchWithFallback s net = .ok (resp, s) := by
    unfold fetchWithFallback
    rw [h]
    exact ite_self _
  unfold performScanModel
  rw [hfetch]

/-- C5 witness: a scan of a server that answers 404 everywhere still
produces a full result with all four check lists. -/
theorem any_status_runs_all_checks_witness :
    performScanModel ⟨"https://example.com", "https://example.com", "https:"⟩
        net404 parseConst 100 = .ok
      { url := "https://example.com"
        security := checkSecurityFast "https://example.com" resp404 net404
        performanceMetrics := checkPerformance resp404 100 (parseConst resp404.data)
        seo := checkSEOFast (parseConst resp404.data) "https://example.com" net404
        accessibility := checkAccessibility (parseConst resp404.data)
        recommendations := generateRecommendations
          (checkSecurityFast "https://example.com" resp404 net404)
          (checkPerformance resp404 100 (parseConst resp404.data))
          (checkSEOFast (parseConst resp404.data) "https://example.com" net404)
          (checkAccessibility (parseConst resp404.data))
        securityScore := calculateScore
          ((checkSecurityFast "https://example.com" resp404 net404).map (fun c => c.status))
        performanceScore := calculateScore
          ((checkPerformance resp404 100 (parseConst resp404.data)).map
            (fun m => perfStatusToCheckStatus m.status))
        seoScore := calculateScore
          ((checkSEOFast (parseConst resp404.data) "https://example.com" net404).map
            (fun c => c.status))
        accessibilityScore := calculateScore
          ((checkAccessibility (parseConst resp404.data)).map (fun c => c.status)) } :=
  any_status_runs_all_checks ⟨"https://example.com", "https://example.com", "https:"⟩
    net404 parseConst 100 resp404 rfl

/-- A network where exactly one probed admin path answers 200 and every
other request fails. -/
def netOneAdmin : Net := fun u =>
  if u = "http://t" ++ "/admin" then .ok resp0 else .error errConn

/-- C6 counterexample: with exactly 1 accessible admin path, the
admin-path check run during a scan (`quickAdminCheck`) reports `fail`,
not the claimed `warning`. -/
theorem quickAdmin_one_accessible_fails :
    quickAdminAccessibleCount "http://t" netOneAdmin = 1 ∧
      (quickAdminCheck "http://t" netOneAdmin).status = "fail" ∧
      (quickAdminCheck "http://t" netOneAdmin).status ≠ "warning" := by
  decide

/-- C6 amended: during a scan the admin-path check is binary
(0 accessible → `pass`, otherwise `fail`); the 0 / 1–2 / >2 tri-state
belongs to the check of `checkBrokenAccessControl`, which `performScan` never
invokes. -/
theorem admin_check_statuses (url origin : String) (net net2 : Net) :
    ((quickAdminCheck url net).status =
      if quickAdminAccessibleCount url net = 0 then "pass" else "fail") ∧
    ((accessControlAdminCheck origin net2).status =
      if (fullAdminAccessiblePaths origin net2).length = 0 then "pass"
      else if (fullAdminAccessiblePaths origin net2).length ≤ 2 then "warning"
      else "fail") := by
  constructor
  · unfold quickAdminCheck
    by_cases h : quickAdminAccessibleCount url net = 0 <;> simp [h]
  · rfl

/-- A document whose only deviation from the fixture is two `<h1>`
elements. -/
def docTwoH1 : Doc := { doc0 with h1Count := 2 }

/-- C7 counterexample: during a scan (`checkSEOFast`), a document with two
`<h1>` elements gets heading status `fail`, not the claimed `warning`. -/
theorem h1_two_gives_fail_not_warning :
    docTwoH1.h1Count = 2 ∧
      ((checkSEOFast docTwoH1 "https://t" netDown)[2]?).map (fun c => c.status) =
        some "fail" ∧
      ((checkSEOFast docTwoH1 "https://t" netDown)[2]?).map (fun c => c.status) ≠
        some "warning" := by
  decide

/-- C7 amended: the heading check of the scan (`H1 Tags`, index 2 of
`checkSEOFast`) is `pass` for exactly one `<h1>` and `fail` otherwise
(zero as well as two-or-more). -/
theorem h1_check_binary (doc : Doc) (url : String) (net : Net) :
    ((checkSEOFast doc url net)[2]?).map (fun c => c.status) =
      some (if doc.h1Count = 1 then "pass" else "fail") := rfl

/-- A document whose title is the 4-character string `Home`. -/
def docShortTitle : Doc := { doc0 with title := "Home" }

/-- C8 counterexample: during a scan (`checkSEOFast`), a present title of
4 characters (outside the claimed 30–60 band) gets status `pass`, not the
claimed `warning`. -/
theorem title_short_passes_not_warning :
    docShortTitle.title.length = 4 ∧
      ((checkSEOFast docShortTitle "https://t" netDown)[0]?).map (fun c => c.status) =
        some "pass" ∧
      ((checkSEOFast docShortTitle "https://t" netDown)[0]?).map (fun c => c.status) ≠
        some "warning" := by
  decide

/-- C8 amended: the title check of the scan (`Page Title`, index 0 of
`checkSEOFast`) is `fail` for an absent/empty title and `pass` for any
non-empty title, with no length band. -/
theorem title_check_binary (doc : Doc) (url : String) (net : Net) :
    ((checkSEOFast doc url net)[0]?).map (fun c => c.status) =
      some (if doc.title.isEmpty then "fail" else "pass") := rfl

/-- C2 counterexample: during a scan, the Alt Text check of `checkAccessibility` on a document with no images has status `pass` and still carries a
non-empty recommendation string. -/
theorem pass_check_carries_recommendation :
    ((checkAccessibility doc0)[0]?).map (fun c => (c.status, c.recommendation)) =
        some ("pass", some "Add descriptive alt text to all images") ∧
      optTruthy (some "Add descriptive alt text to all images") = true := by
  decide

/-- C2 amended: the pass-implies-no-recommendation invariant holds for
every check produced by `checkSecurityFast` (including the three quick
network probes) and `checkSEOFast`, but not for `checkAccessibility`,
which attaches its recommendation unconditionally. -/
theorem pass_no_recommendation_security_seo (url : String) (resp : Response)
    (net : Net) (doc : Doc) :
    ∀ c ∈ checkSecurityFast url resp net ++ checkSEOFast doc url net,
      c.status = "pass" → c.recommendation = none := by
  intro c hc hpass
  rw [List.mem_append] at hc
  rcases hc with hc | hc
  · unfold checkSecurityFast at hc
    simp only [List.mem_cons, List.not_mem_nil, or_false] at hc
    rcases hc with rfl | rfl | rfl | rfl | rfl | rfl | rfl | rfl
    · dsimp only at hpass ⊢
      split at hpass <;> simp_all
    · dsimp only at hpass ⊢
      split at hpass <;> simp_all
    · dsimp only at hpass ⊢
      split at hpass <;> simp_all
    · dsimp only at hpass ⊢
      split at hpass <;> simp_all
    · dsimp only at hpass ⊢
      split at hpass <;> simp_all
    · unfold quickAdminCheck at hpass ⊢
      dsimp only at hpass ⊢
      split at hpass <;> simp_all
    · unfold quickRobotsCheck at hpass ⊢
      cases hnet : net (url ++ "/robots.txt") with
      | error e => rfl
      | ok r =>
        dsimp only at hpass ⊢
        by_cases h200 : r.status = 200
        · simp only [if_pos h200] at hpass ⊢
          split at hpass <;> simp_all
        · simp only [if_neg h200]
    · unfold quickSensitiveFileCheck at hpass ⊢
      dsimp only at hpass ⊢
      split at hpass <;> simp_all
  · unfold checkSEOFast at hc
    simp only [List.mem_cons, List.not_mem_nil, or_false] at hc
    rcases hc with rfl | rfl | rfl | rfl | rfl
    · dsimp only at hpass ⊢
      split at hpass <;> simp_all
    · dsimp only at hpass ⊢
      split at hpass <;> simp_all
    · dsimp only at hpass ⊢
      split at hpass <;> simp_all
    · dsimp only at hpass ⊢
      split at hpass <;> simp_all
    · cases hnet : net (url ++ "/sitemap.xml") with
      | error e => rfl
      | ok r =>
        dsimp only at hpass ⊢
        split at hpass <;> simp_all

/-- C2 amended witness: the HTTPS check of a concrete `https://` scan
passes and indeed has no recommendation. -/
theorem pass_no_recommendation_security_seo_witness :
    ({ name := "HTTPS", status := "pass", description := "Site uses HTTPS",
        recommendation := none } : CheckResult) ∈
        checkSecurityFast "https://x" resp0 netDown ++ checkSEOFast doc0 "https://x" netDown ∧
      ({ name := "HTTPS", status := "pass", description := "Site uses HTTPS",
          recommendation := none } : CheckResult).recommendation = none :=
  ⟨by decide,
    pass_no_recommendation_security_seo "https://x" resp0 netDown doc0 _ (by decide) (by decide)⟩

/-- `filterMap` collapses to `map` on a list where `f` is everywhere
`some`-valued. -/
theorem filterMap_eq_map_of_mem {α β : Type} (l : List α) (f : α → Option β) (g : α → β)
    (h : ∀ a ∈ l, f a = some (g a)) : l.filterMap f = l.map g := by
  induction l with
  | nil => rfl
  | cons a as ih =>
    rw [List.filterMap_cons, h a (by simp), List.map_cons,
      ih (fun x hx => h x (by simp [hx]))]

/-- The canned remediation string for each performance metric name, as the
claim describes it (one string per poor metric; the four metric names are
the ones `checkPerformance` produces). -/
def cannedPerfRec (name : String) : String :=
  if name = "Load Time" then
    "Optimize images, enable compression, and use a CDN to improve load times"
  else if name = "TTFB" then
    "Optimize server response time by improving database queries and caching"
  else if name = "Page Size" then
    "Reduce page size by optimizing images, minifying CSS/JS, and removing unused code"
  else
    "Reduce HTTP requests by combining files, using sprites, and lazy loading"

/-- The recommendations list exactly as the claim describes it: the
recommendation of every `fail` check with a non-empty recommendation, in
the order security, SEO, accessibility (each in execution order), followed
by one canned string per `poor` performance metric; no deduplication. -/
def recommendationsSpec (security : List SecurityCheck)
    (performance : List PerformanceMetric) (seo : List SEOCheck)
    (accessibility : List AccessibilityCheck) : List String :=
  ((security ++ seo ++ accessibility).filter
      (fun c => c.status == "fail" && !(c.recommendation.getD "").isEmpty)).map
    (fun c => c.recommendation.getD "")
  ++ (performance.filter (fun m => m.status == "poor")).map
    (fun m => cannedPerfRec m.name)

/-- C9: `generateRecommendations` produces exactly the list the claim
describes, whenever the performance metrics carry the four names
`checkPerformance` produces. -/
theorem generateRecommendations_eq_spec (security : List SecurityCheck)
    (performance : List PerformanceMetric) (seo : List SEOCheck)
    (accessibility : List AccessibilityCheck)
    (hnames : ∀ m ∈ performance, m.name = "Load Time" ∨ m.name = "TTFB" ∨
      m.name = "Page Size" ∨ m.name = "Resource Count") :
    generateRecommendations security performance seo accessibility =
      recommendationsSpec security performance seo accessibility := by
  have hemp : ("" : String).isEmpty = true := rfl
  unfold generateRecommendations recommendationsSpec
  congr 1
  · have hfilter : (fun (c : CheckResult) => c.status == "fail" && optTruthy c.recommendation) =
        fun (c : CheckResult) => c.status == "fail" && !(c.recommendation.getD "").isEmpty := by
      funext c
      cases hrec : c.recommendation <;> simp [optTruthy, hrec, hemp]
    rw [hfilter]
    apply filterMap_eq_map_of_mem
    intro c hc
    rw [List.mem_filter] at hc
    obtain ⟨-, hcond⟩ := hc
    cases hrec : c.recommendation with
    | none => rw [hrec] at hcond; simp [hemp] at hcond
    | some sr => simp [hrec]
  · apply filterMap_eq_map_of_mem
    intro m hm
    rw [List.mem_filter] at hm
    rcases hnames m hm.1 with h | h | h | h <;>
      simp [perfCanned, cannedPerfRec, h]

/-- C9 witness: duplicate recommendations from two categories are kept,
and two poor metrics (load time and TTFB at 5000 ms) each contribute
their canned string; the aggregate equals the spec-described list. -/
theorem generateRecommendations_eq_spec_witness :
    (∀ m ∈ checkPerformance resp0 5000 doc0, m.name = "Load Time" ∨ m.name = "TTFB" ∨
        m.name = "Page Size" ∨ m.name = "Resource Count") ∧
      generateRecommendations
          [{ name := "A", status := "fail", description := "d", recommendation := some "Add X" }]
          (checkPerformance resp0 5000 doc0)
          [{ name := "B", status := "fail", description := "d", recommendation := some "Add X" }]
          [] =
        recommendationsSpec
          [{ name := "A", status := "fail", description := "d", recommendation := some "Add X" }]
          (checkPerformance resp0 5000 doc0)
          [{ name := "B", status := "fail", description := "d", recommendation := some "Add X" }]
          [] :=
  ⟨by decide,
    generateRecommendations_eq_spec _ _ _ _ (by decide)⟩

end AuditX
